import Mathlib

/-!
Shallow embedding of `src/language-learning-app.js`, the session-state core of
a phrase-learning web app: the retrying generation client (`callGeminiAPI`),
the deck state mutated by the generate-button click handler and the navigation
handlers (`showNextPhrase` / `showPreviousPhrase`), the cooldown timer
(`startTimer` plus the `setInterval` callback), and the speech dispatcher
(`speakText` with its voice lookup).

DOM-only effects (headings, counters, bubble text, CSS transitions) are not
part of the model; every state variable the source mutates
(`phrasesData`, `currentPhraseIndex`, `learningLangCode`, `voices`,
`generateBtn.disabled`, `timerInterval`) is.  Network and platform behaviour
(fetch outcomes, `speechSynthesis` availability, `speak` throwing) is supplied
as explicit parameters, since the source consumes them as opaque services.
-/

set_option autoImplicit false

namespace LangApp

/-- Model of `WordAlignment`: one element of a phrase's `word_by_word_learning` array
(source schema lines 371-382). -/
structure WordAlignment where
  original : String
  transliteration : String
  translated : String
deriving Repr, DecidableEq

/-- Model of `Phrase`: one element of the parsed generation payload
(source schema lines 362-386). -/
structure Phrase where
  native : String
  learning : String
  native_phonetics : String
  learning_phonetics : String
  word_by_word_learning : List WordAlignment
deriving Repr, DecidableEq

/-- A voice entry from `speechSynthesis.getVoices()`.  The source consults only
the `lang` tag of a voice (line 103), so only that field is modelled. -/
structure Voice where
  lang : String
deriving Repr, DecidableEq

/-- The module-level mutable session state of the source
(lines 46-50): `phrasesData`, `currentPhraseIndex`, `learningLangCode`
(`null` before the first generate click), the loaded `voices` array, and the
generate button's `disabled` flag. -/
structure AppState where
  phrasesData : List Phrase
  currentPhraseIndex : Nat
  learningLangCode : Option String
  voices : List Voice
  generateBtnDisabled : Bool
deriving Repr, DecidableEq

/-- Initial session state (source lines 46-50): empty deck, index 0,
no learning language, no voices loaded, generate button enabled. -/
def initialAppState : AppState :=
  { phrasesData := []
    currentPhraseIndex := 0
    learningLangCode := none
    voices := []
    generateBtnDisabled := false }

/-! ## GenerationClient: `callGeminiAPI` (source lines 128-178) -/

/-- Outcome of one attempt of the `try` block inside `callGeminiAPI`'s retry
loop.  `failure` covers every thrown error the `catch` sees — a fetch/network
error, a non-ok response status (line 155), a response missing the expected
candidate structure (line 165), or a `JSON.parse` failure — all of which the
source folds into one retryable class.  `success` carries the value of
`JSON.parse(json)`, modelled in the conforming shape (a `Phrase` list of
arbitrary length; the source performs no further validation of it). -/
inductive AttemptResult where
  | failure (cause : String)
  | success (phrases : List Phrase)
deriving Repr, DecidableEq

/-- Whether an attempt threw. -/
def AttemptResult.isFailure : AttemptResult → Bool
  | .failure _ => true
  | .success _ => false

/-- What one run of `callGeminiAPI` did: its final result (`.ok` = the parsed
payload returned, `.error` = the re-thrown last cause), the list of backoff
delays awaited between consecutive attempts (line 171), and how many attempts
were made. -/
structure GenOutcome where
  result : Except String (List Phrase)
  waits : List Nat
  attemptsMade : Nat
deriving Repr

/-- Constant `maxRetries` (source line 142). -/
def maxRetries : Nat := 5

/-- The `while (retries < maxRetries)` loop of `callGeminiAPI`
(source lines 146-177), with the outcome of attempt number `r` supplied by
`attempts r`.  On failure the source increments `retries`; if the budget is
not exhausted it awaits `delay` and doubles it, otherwise it re-throws the
last error.  The unreachable fall-through (loop exits with `retries`
already at `maxRetries`) returns `undefined` in the source. -/
def geminiLoop (attempts : Nat → AttemptResult) (retries delay : Nat) : GenOutcome :=
  if _h : retries < maxRetries then
    match attempts retries with
    | .success ps => { result := .ok ps, waits := [], attemptsMade := 1 }
    | .failure cause =>
      if h2 : retries + 1 < maxRetries then
        let rest := geminiLoop attempts (retries + 1) (delay * 2)
        { result := rest.result
          waits := delay :: rest.waits
          attemptsMade := rest.attemptsMade + 1 }
      else { result := .error cause, waits := [], attemptsMade := 1 }
  else { result := .error "undefined", waits := [], attemptsMade := 0 }
termination_by maxRetries - retries

/-- Function `callGeminiAPI` (source lines 128-178): the loop entered with
`retries = 0`, `delay = 1000`. -/
def callGeminiAPI (attempts : Nat → AttemptResult) : GenOutcome :=
  geminiLoop attempts 0 1000

/-! ## Deck controller: generate-button handler and navigation -/

/-- Expression `phrasesData.map(p => p.learning)` (source line 391): the learning-side
strings of the current deck, collected to build the exclusion instruction. -/
def learningPhrasesOnly (phrasesData : List Phrase) : List String :=
  phrasesData.map (fun p => p.learning)

/-- Variable `excludedPhrases` (source lines 389-393): the exclusion sentence embedded
in the generation prompt; the empty string when the deck is empty. -/
def excludedPhrases (phrasesData : List Phrase) : String :=
  if phrasesData.length > 0 then
    "Please ensure none of the new phrases are identical to these: "
      ++ String.intercalate ", " (learningPhrasesOnly phrasesData) ++ "."
  else ""

/-- What one generate-button click did: the resulting session state, whether
`startTimer()` was invoked (source line 414, success path only), and the
exclusion list embedded in the prompt sent to the client (`none` when
validation returned before the call was made). -/
structure GenerateResult where
  state : AppState
  timerStarted : Bool
  exclusionsSent : Option (List String)
deriving Repr, DecidableEq

/-- The generate-button click handler (source lines 301-424).
`nativeLangCode` / `learningCode` are the dropdown values; `outcome` is how
the awaited `callGeminiAPI` call resolved (`.ok` with the parsed payload, or
`.error` after retry exhaustion).  Steps mirrored from the source:
line 303 stores the learning code in the module variable before anything
else; lines 333-337 return early when either code is falsy (empty string);
line 347 disables the button; line 351 resets `currentPhraseIndex` to 0;
lines 388-393 build the exclusion list from the deck as it stands before the
call; on success line 407 replaces `phrasesData` and line 414 starts the
cooldown timer; the `catch` block (416-419) only shows an error message.
Topic resolution and the custom-topic validation are outside the modelled
core (they touch no modelled state). -/
def generateClick (s : AppState) (nativeLangCode learningCode : String)
    (outcome : Except String (List Phrase)) : GenerateResult :=
  let s1 := { s with learningLangCode := some learningCode }
  if nativeLangCode = "" ∨ learningCode = "" then
    { state := s1, timerStarted := false, exclusionsSent := none }
  else
    let s2 := { s1 with generateBtnDisabled := true, currentPhraseIndex := 0 }
    let exclusions := learningPhrasesOnly s2.phrasesData
    match outcome with
    | .ok ps =>
        { state := { s2 with phrasesData := ps }
          timerStarted := true
          exclusionsSent := some exclusions }
    | .error _ =>
        { state := s2, timerStarted := false, exclusionsSent := some exclusions }

/-- Function `showNextPhrase` (source lines 248-253): advance only while
`currentPhraseIndex < phrasesData.length - 1` (JavaScript number arithmetic,
hence the `Int` comparison: for an empty deck the bound is `-1`). -/
def showNextPhrase (s : AppState) : AppState :=
  if (s.currentPhraseIndex : Int) < (s.phrasesData.length : Int) - 1 then
    { s with currentPhraseIndex := s.currentPhraseIndex + 1 }
  else s

/-- Function `showPreviousPhrase` (source lines 256-261): decrement only while
`currentPhraseIndex > 0`. -/
def showPreviousPhrase (s : AppState) : AppState :=
  if 0 < s.currentPhraseIndex then
    { s with currentPhraseIndex := s.currentPhraseIndex - 1 }
  else s

/-- The read of `phrasesData[currentPhraseIndex]` performed by the
learning-phrase click handler (source lines 442-447): a pure projection —
`none` models JavaScript `undefined` on an out-of-range index — paired with
the untouched state. -/
def currentPhrase (s : AppState) : AppState × Option Phrase :=
  (s, s.phrasesData.get? s.currentPhraseIndex)

/-! ## Speech dispatch: `speakText` (source lines 81-120) -/

/-- Host platform capabilities consumed by `speakText`:
whether `window.speechSynthesis` exists, whether
`window.speechSynthesis.speak` throws at dispatch, and what
`speechSynthesis.getVoices()` would return if `loadVoices()` re-reads it. -/
structure Platform where
  speechSynthesisAvailable : Bool
  speakThrows : Bool
  voicesOnReload : List Voice
deriving Repr, DecidableEq

/-- JavaScript `lang.substring(0, 2)` on the language code (source line 103). -/
def substringToTwo (s : String) : String :=
  ⟨s.data.take 2⟩

/-- JavaScript `s.startsWith(pre)` (source line 103). -/
def jsStartsWith (s pre : String) : Bool :=
  pre.data.isPrefixOf s.data

/-- The predicate of the `voices.find(...)` call (source line 103): an exact
`lang` match OR a match on the first two characters of the learning code. -/
def voiceMatches (learningLangCode : String) (v : Voice) : Bool :=
  v.lang == learningLangCode || jsStartsWith v.lang (substringToTwo learningLangCode)

/-- Expression `voices.find(v => v.lang === learningLangCode || v.lang.startsWith(
learningLangCode.substring(0, 2)))` (source line 103): the first entry
satisfying the disjunction, in catalog order, or `none`. -/
def findVoice (voices : List Voice) (learningLangCode : String) : Option Voice :=
  voices.find? (voiceMatches learningLangCode)

/-- How one `speakText` call ended.
`noLanguageCode`: the line 82 safeguard returned before doing anything.
`ttsNotReady`: empty voice catalog — transient notice shown, `loadVoices()`
retried, no utterance dispatched (lines 90-95).
`spoken text lang voice`: `speechSynthesis.speak` accepted an utterance with
this text, language, and (optional) selected voice handle (lines 97-110).
`speakFailed`: `speak` threw; failure notice shown (lines 111-115).
`ttsUnsupported`: no `window.speechSynthesis` (lines 116-119). -/
inductive SpeakOutcome where
  | noLanguageCode
  | ttsNotReady
  | spoken (text lang : String) (voice : Option Voice)
  | speakFailed
  | ttsUnsupported
deriving Repr, DecidableEq

/-- Function `speakText` (source lines 81-120).  Branch order as in the source:
the falsy check on the module variable `learningLangCode` first, then
`window.speechSynthesis` existence, then the empty-catalog check (which
re-runs `loadVoices()`, the only state change this function can make), then
voice selection and dispatch. -/
def speakText (platform : Platform) (s : AppState) (text : String) :
    AppState × SpeakOutcome :=
  match s.learningLangCode with
  | none => (s, .noLanguageCode)
  | some code =>
    if code = "" then (s, .noLanguageCode)
    else if platform.speechSynthesisAvailable then
      if s.voices.length = 0 then
        ({ s with voices := platform.voicesOnReload }, .ttsNotReady)
      else if platform.speakThrows then (s, .speakFailed)
      else (s, .spoken text code (findVoice s.voices code))
    else (s, .ttsUnsupported)

/-! ## CooldownTimer: `startTimer` and the interval callback
(source lines 263-288) -/

/-- Constant `WAIT_TIME` (source line 51): 5 minutes in seconds. -/
def WAIT_TIME : Nat := 5 * 60

/-- One live `setInterval` registration created by `startTimer`: its handle
and the `endTime` its callback closed over. -/
structure Interval where
  id : Nat
  endTime : Int
deriving Repr, DecidableEq

/-- The timer-related mutable state: the set of interval registrations still
live in the host (in creation order), the module variable `timerInterval`
(holding the handle from the most recent `setInterval` call), the generate
button's `disabled` flag as the timer code manipulates it, and a counter
supplying fresh handles. -/
structure TimerState where
  intervals : List Interval
  timerInterval : Option Nat
  generateBtnDisabled : Bool
  nextId : Nat
deriving Repr, DecidableEq

/-- Function `startTimer` (source lines 264-288) at wall-clock instant `now` (ms):
computes `endTime = Date.now() + WAIT_TIME * 1000`, registers a new interval
whose callback closes over that `endTime`, and overwrites the module variable
`timerInterval` with the new handle.  Note it does NOT clear any previously
registered interval. -/
def startTimer (now : Int) (ts : TimerState) : TimerState :=
  { intervals := ts.intervals ++ [{ id := ts.nextId, endTime := now + (WAIT_TIME : Int) * 1000 }]
    timerInterval := some ts.nextId
    generateBtnDisabled := ts.generateBtnDisabled
    nextId := ts.nextId + 1 }

/-- Model of `clearInterval(h)`: removes the registration named by the handle, if any. -/
def clearIntervalHandle (h : Option Nat) (ivs : List Interval) : List Interval :=
  match h with
  | none => ivs
  | some i => ivs.filter (fun iv => iv.id != i)

/-- One firing of the interval callback registered for `iv`, at wall-clock
instant `now` (source lines 271-287).  A callback fires only while its
registration is live.  It computes
`timeLeft = Math.floor((endTime - Date.now()) / 1000)`; when
`timeLeft <= 0` it runs `clearInterval(timerInterval)` — clearing whatever
registration the module variable currently names, not necessarily itself —
and re-enables the generate button.  The returned `Bool` records whether this
expiry branch ran (the cooldown's completion notification). -/
def intervalFire (iv : Interval) (now : Int) (ts : TimerState) : TimerState × Bool :=
  if iv ∈ ts.intervals then
    if (iv.endTime - now).fdiv 1000 ≤ 0 then
      ({ ts with
          intervals := clearIntervalHandle ts.timerInterval ts.intervals
          generateBtnDisabled := false }, true)
    else (ts, false)
  else (ts, false)

/-! ## The deck-index invariant -/

/-- The spec invariant: whenever the deck is non-empty, `currentPhraseIndex`
is in range. -/
def coreInvariant (s : AppState) : Prop :=
  s.phrasesData ≠ [] → s.currentPhraseIndex < s.phrasesData.length

/-! ## Sample data for concrete instantiations -/

/-- A sample phrase (Latin-alphabet pair, so phonetics are empty). -/
def samplePhraseA : Phrase :=
  { native := "Hello", learning := "Bonjour"
    native_phonetics := "", learning_phonetics := ""
    word_by_word_learning := [] }

/-- A second sample phrase. -/
def samplePhraseB : Phrase :=
  { native := "Goodbye", learning := "Au revoir"
    native_phonetics := "", learning_phonetics := ""
    word_by_word_learning := [] }

/-- A third sample phrase. -/
def samplePhraseC : Phrase :=
  { native := "Thanks", learning := "Merci"
    native_phonetics := "", learning_phonetics := ""
    word_by_word_learning := [] }

/-- A session state holding a three-phrase deck with the cursor on the last
phrase (as after two `next()` calls following a successful generation). -/
def sampleDeck3 : AppState :=
  { phrasesData := [samplePhraseA, samplePhraseB, samplePhraseC]
    currentPhraseIndex := 2
    learningLangCode := some "fr-FR"
    voices := []
    generateBtnDisabled := true }

end LangApp

namespace LangApp

/-! ## Lemmas about the retry loop -/

/-- A failed attempt is a `failure` with some cause. -/
theorem isFailure_exists {r : AttemptResult} (h : r.isFailure = true) :
    ∃ c, r = .failure c := by
  cases r with
  | failure c => exact ⟨c, rfl⟩
  | success ps => simp [AttemptResult.isFailure] at h

/-- A successful attempt returns the parsed payload at once, with no wait. -/
theorem geminiLoop_success (attempts : Nat → AttemptResult) (r d : Nat)
    (ps : List Phrase) (hr : r < maxRetries) (h : attempts r = .success ps) :
    geminiLoop attempts r d = { result := .ok ps, waits := [], attemptsMade := 1 } := by
  rw [geminiLoop]
  rw [dif_pos hr, h]

/-- A failed attempt with budget remaining waits `d`, doubles the delay, and
continues. -/
theorem geminiLoop_failure_step (attempts : Nat → AttemptResult) (r d : Nat)
    (cause : String) (hr : r + 1 < maxRetries) (h : attempts r = .failure cause) :
    geminiLoop attempts r d =
      { result := (geminiLoop attempts (r + 1) (d * 2)).result
        waits := d :: (geminiLoop attempts (r + 1) (d * 2)).waits
        attemptsMade := (geminiLoop attempts (r + 1) (d * 2)).attemptsMade + 1 } := by
  rw [geminiLoop]
  rw [dif_pos (by omega : r < maxRetries), h]
  simp [hr]

/-- The fifth failed attempt re-throws its cause with no further wait. -/
theorem geminiLoop_failure_last (attempts : Nat → AttemptResult) (d : Nat)
    (cause : String) (h : attempts 4 = .failure cause) :
    geminiLoop attempts 4 d = { result := .error cause, waits := [], attemptsMade := 1 } := by
  rw [geminiLoop]
  rw [dif_pos (by simp [maxRetries] : 4 < maxRetries), h]
  simp [maxRetries]

/-- The loop makes at most `maxRetries - retries` further attempts. -/
theorem geminiLoop_attemptsMade_le (attempts : Nat → AttemptResult) :
    ∀ (n r d : Nat), maxRetries - r ≤ n →
      (geminiLoop attempts r d).attemptsMade ≤ n := by
  intro n
  induction n with
  | zero =>
    intro r d hn
    rw [geminiLoop]
    rw [dif_neg (by omega : ¬ r < maxRetries)]
  | succ n ih =>
    intro r d hn
    rw [geminiLoop]
    by_cases hr : r < maxRetries
    · rw [dif_pos hr]
      cases hat : attempts r with
      | success ps => simp
      | failure cause =>
        dsimp only
        by_cases h2 : r + 1 < maxRetries
        · rw [dif_pos h2]
          have hrest := ih (r + 1) (d * 2) (by omega)
          simpa using hrest
        · rw [dif_neg h2]
          simp
    · rw [dif_neg hr]
      simp

end LangApp

namespace LangApp

/-- C3: for every request and every sequence of underlying failures,
`callGeminiAPI` makes at most 5 attempts total; when all five attempts fail
it waits 1000, 2000, 4000 and 8000 ms between consecutive attempts and
surfaces a terminal error carrying the last underlying cause with no further
retries; a success on attempt `k` (after `k` failures) returns the parsed
phrase array immediately, having waited only the first `k` of those delays. -/
theorem c3_retry_policy (attempts : Nat → AttemptResult) :
    (∀ (cause : String), (∀ i, i < 4 → (attempts i).isFailure = true) →
        attempts 4 = .failure cause →
        callGeminiAPI attempts =
          { result := .error cause, waits := [1000, 2000, 4000, 8000], attemptsMade := 5 })
    ∧ (∀ (k : Nat) (ps : List Phrase), k < 5 →
        (∀ i, i < k → (attempts i).isFailure = true) →
        attempts k = .success ps →
        callGeminiAPI attempts =
          { result := .ok ps
            waits := List.take k [1000, 2000, 4000, 8000]
            attemptsMade := k + 1 })
    ∧ (callGeminiAPI attempts).attemptsMade ≤ 5 := by
  refine ⟨?_, ?_, ?_⟩
  · intro cause hfail h4
    obtain ⟨c0, h0⟩ := isFailure_exists (hfail 0 (by omega))
    obtain ⟨c1, h1⟩ := isFailure_exists (hfail 1 (by omega))
    obtain ⟨c2, h2⟩ := isFailure_exists (hfail 2 (by omega))
    obtain ⟨c3, h3⟩ := isFailure_exists (hfail 3 (by omega))
    unfold callGeminiAPI
    rw [geminiLoop_failure_step attempts 0 1000 c0 (by simp [maxRetries]) h0,
        geminiLoop_failure_step attempts 1 2000 c1 (by simp [maxRetries]) h1,
        geminiLoop_failure_step attempts 2 4000 c2 (by simp [maxRetries]) h2,
        geminiLoop_failure_step attempts 3 8000 c3 (by simp [maxRetries]) h3,
        geminiLoop_failure_last attempts 16000 cause h4]
  · intro k ps hk hfail hsucc
    unfold callGeminiAPI
    interval_cases k
    · rw [geminiLoop_success attempts 0 1000 ps (by simp [maxRetries]) hsucc]
      rfl
    · obtain ⟨c0, h0⟩ := isFailure_exists (hfail 0 (by omega))
      rw [geminiLoop_failure_step attempts 0 1000 c0 (by simp [maxRetries]) h0,
          geminiLoop_success attempts 1 2000 ps (by simp [maxRetries]) hsucc]
      rfl
    · obtain ⟨c0, h0⟩ := isFailure_exists (hfail 0 (by omega))
      obtain ⟨c1, h1⟩ := isFailure_exists (hfail 1 (by omega))
      rw [geminiLoop_failure_step attempts 0 1000 c0 (by simp [maxRetries]) h0,
          geminiLoop_failure_step attempts 1 2000 c1 (by simp [maxRetries]) h1,
          geminiLoop_success attempts 2 4000 ps (by simp [maxRetries]) hsucc]
      rfl
    · obtain ⟨c0, h0⟩ := isFailure_exists (hfail 0 (by omega))
      obtain ⟨c1, h1⟩ := isFailure_exists (hfail 1 (by omega))
      obtain ⟨c2, h2⟩ := isFailure_exists (hfail 2 (by omega))
      rw [geminiLoop_failure_step attempts 0 1000 c0 (by simp [maxRetries]) h0,
          geminiLoop_failure_step attempts 1 2000 c1 (by simp [maxRetries]) h1,
          geminiLoop_failure_step attempts 2 4000 c2 (by simp [maxRetries]) h2,
          geminiLoop_success attempts 3 8000 ps (by simp [maxRetries]) hsucc]
      rfl
    · obtain ⟨c0, h0⟩ := isFailure_exists (hfail 0 (by omega))
      obtain ⟨c1, h1⟩ := isFailure_exists (hfail 1 (by omega))
      obtain ⟨c2, h2⟩ := isFailure_exists (hfail 2 (by omega))
      obtain ⟨c3, h3⟩ := isFailure_exists (hfail 3 (by omega))
      rw [geminiLoop_failure_step attempts 0 1000 c0 (by simp [maxRetries]) h0,
          geminiLoop_failure_step attempts 1 2000 c1 (by simp [maxRetries]) h1,
          geminiLoop_failure_step attempts 2 4000 c2 (by simp [maxRetries]) h2,
          geminiLoop_failure_step attempts 3 8000 c3 (by simp [maxRetries]) h3,
          geminiLoop_success attempts 4 16000 ps (by simp [maxRetries]) hsucc]
      rfl
  · exact geminiLoop_attemptsMade_le attempts 5 0 1000 (by simp [maxRetries])

/-- Witness for C3: a stream whose every attempt fails with a network error
exhausts exactly five attempts, waits 1s/2s/4s/8s, and re-throws that cause. -/
theorem c3_retry_policy_witness :
    callGeminiAPI (fun _ => AttemptResult.failure "network down") =
      { result := .error "network down"
        waits := [1000, 2000, 4000, 8000]
        attemptsMade := 5 } :=
  (c3_retry_policy (fun _ => AttemptResult.failure "network down")).1
    "network down" (fun _ _ => rfl) rfl

end LangApp

namespace LangApp

/-! ## Lemmas about navigation -/

/-- Navigation never touches the phrase list. -/
theorem showNextPhrase_phrasesData (s : AppState) :
    (showNextPhrase s).phrasesData = s.phrasesData := by
  unfold showNextPhrase
  split <;> rfl

/-- Navigation never touches the phrase list. -/
theorem showPreviousPhrase_phrasesData (s : AppState) :
    (showPreviousPhrase s).phrasesData = s.phrasesData := by
  unfold showPreviousPhrase
  split <;> rfl

/-- Iterating `showNextPhrase` while in range advances the cursor one step per
call and leaves the deck alone. -/
theorem showNextPhrase_iterate (k : Nat) :
    ∀ (s : AppState), s.currentPhraseIndex + k + 1 ≤ s.phrasesData.length →
      (showNextPhrase^[k] s).currentPhraseIndex = s.currentPhraseIndex + k
      ∧ (showNextPhrase^[k] s).phrasesData = s.phrasesData := by
  induction k with
  | zero => intro s _; simp
  | succ k ih =>
    intro s hs
    rw [Function.iterate_succ_apply]
    have hguard : (s.currentPhraseIndex : Int) < (s.phrasesData.length : Int) - 1 := by
      omega
    have hstep : showNextPhrase s =
        { s with currentPhraseIndex := s.currentPhraseIndex + 1 } := by
      unfold showNextPhrase
      rw [if_pos hguard]
    obtain ⟨h1, h2⟩ := ih { s with currentPhraseIndex := s.currentPhraseIndex + 1 }
      (by dsimp only; omega)
    rw [hstep]
    dsimp only at h1 h2
    exact ⟨by rw [h1]; omega, h2⟩

/-- At the last phrase, `showNextPhrase` is a no-op. -/
theorem showNextPhrase_atEnd (s : AppState)
    (h : s.phrasesData.length ≤ s.currentPhraseIndex + 1) :
    showNextPhrase s = s := by
  unfold showNextPhrase
  rw [if_neg]
  omega

/-- Iterating `showPreviousPhrase` while above zero steps the cursor back one
step per call and leaves the deck alone. -/
theorem showPreviousPhrase_iterate (k : Nat) :
    ∀ (s : AppState), k ≤ s.currentPhraseIndex →
      (showPreviousPhrase^[k] s).currentPhraseIndex = s.currentPhraseIndex - k
      ∧ (showPreviousPhrase^[k] s).phrasesData = s.phrasesData := by
  induction k with
  | zero => intro s _; simp
  | succ k ih =>
    intro s hs
    rw [Function.iterate_succ_apply]
    have hstep : showPreviousPhrase s =
        { s with currentPhraseIndex := s.currentPhraseIndex - 1 } := by
      unfold showPreviousPhrase
      rw [if_pos (by omega)]
    obtain ⟨h1, h2⟩ := ih { s with currentPhraseIndex := s.currentPhraseIndex - 1 }
      (by dsimp only; omega)
    rw [hstep]
    dsimp only at h1 h2
    exact ⟨by rw [h1]; omega, h2⟩

/-- At index 0, `showPreviousPhrase` is a no-op. -/
theorem showPreviousPhrase_atStart (s : AppState)
    (h : s.currentPhraseIndex = 0) : showPreviousPhrase s = s := by
  unfold showPreviousPhrase
  rw [if_neg (by omega)]

end LangApp

namespace LangApp

/-- A session state holding a two-phrase deck with the cursor at 0 (as
immediately after a successful generation of two phrases). -/
def sampleDeck2Start : AppState :=
  { phrasesData := [samplePhraseA, samplePhraseB]
    currentPhraseIndex := 0
    learningLangCode := some "fr-FR"
    voices := []
    generateBtnDisabled := true }

/-- C6: for every deck of `n > 0` phrases, `n - 1` calls of `showNextPhrase`
from index 0 end at index `n - 1`, and every further call is a no-op (no
wrap-around); symmetrically, `n - 1` calls of `showPreviousPhrase` from index
`n - 1` end at index 0, and every further call is a no-op. -/
theorem c6_navigation_bounds (s : AppState) (n : Nat) (hn : 0 < n)
    (hlen : s.phrasesData.length = n) (hidx : s.currentPhraseIndex = 0) :
    ((showNextPhrase^[n - 1] s).currentPhraseIndex = n - 1
      ∧ ∀ m, showNextPhrase^[m] (showNextPhrase^[n - 1] s) = showNextPhrase^[n - 1] s)
    ∧ ∀ t : AppState, t.phrasesData.length = n → t.currentPhraseIndex = n - 1 →
        (showPreviousPhrase^[n - 1] t).currentPhraseIndex = 0
        ∧ ∀ m, showPreviousPhrase^[m] (showPreviousPhrase^[n - 1] t)
            = showPreviousPhrase^[n - 1] t := by
  obtain ⟨hidx1, hph1⟩ := showNextPhrase_iterate (n - 1) s (by omega)
  refine ⟨⟨by omega, ?_⟩, ?_⟩
  · intro m
    exact Function.iterate_fixed
      (showNextPhrase_atEnd _ (by rw [hph1, hlen]; omega)) m
  · intro t hlen2 hidx2
    obtain ⟨hidx3, _⟩ := showPreviousPhrase_iterate (n - 1) t (by omega)
    refine ⟨by omega, ?_⟩
    intro m
    exact Function.iterate_fixed (showPreviousPhrase_atStart _ (by omega)) m

/-- Witness for C6: on a concrete two-phrase deck starting at index 0, one
`showNextPhrase` call reaches index 1. -/
theorem c6_navigation_bounds_witness :
    (0 < 2 ∧ sampleDeck2Start.phrasesData.length = 2
      ∧ sampleDeck2Start.currentPhraseIndex = 0)
    ∧ (showNextPhrase^[2 - 1] sampleDeck2Start).currentPhraseIndex = 2 - 1 :=
  ⟨⟨by decide, by decide, by decide⟩,
    (c6_navigation_bounds sampleDeck2Start 2 (by decide) (by decide) (by decide)).1.1⟩

end LangApp

namespace LangApp

/-- C1 (counterexample): the claim says a failed regeneration leaves
`currentIndex` unchanged, but the handler resets `currentPhraseIndex` to 0
(source line 351) before the call, so a failure from a deck with the cursor
at index 2 leaves the cursor at 0, not 2. -/
theorem c1_failure_resets_index_counterexample :
    (generateClick sampleDeck3 "en-US" "fr-FR"
        (Except.error "network down")).state.currentPhraseIndex
      ≠ sampleDeck3.currentPhraseIndex := by
  decide

/-- C1 (amended): on a failed regeneration attempt the phrase list is left
unchanged and the cooldown timer is not started, but `currentPhraseIndex` has
been reset to 0 at the start of the attempt — not left unchanged, and not
reset only on successful replacement. -/
theorem c1_failure_leaves_deck_amended (s : AppState)
    (nativeLangCode learningCode cause : String)
    (hn : nativeLangCode ≠ "") (hl : learningCode ≠ "") :
    (generateClick s nativeLangCode learningCode
        (Except.error cause)).state.phrasesData = s.phrasesData
    ∧ (generateClick s nativeLangCode learningCode
        (Except.error cause)).timerStarted = false
    ∧ (generateClick s nativeLangCode learningCode
        (Except.error cause)).state.currentPhraseIndex = 0 := by
  unfold generateClick
  rw [if_neg (by tauto)]
  exact ⟨rfl, rfl, rfl⟩

/-- Witness for the amended C1, on a concrete three-phrase deck. -/
theorem c1_failure_leaves_deck_amended_witness :
    ("en-US" ≠ "" ∧ "fr-FR" ≠ "")
    ∧ (generateClick sampleDeck3 "en-US" "fr-FR"
        (Except.error "network down")).state.phrasesData = sampleDeck3.phrasesData :=
  ⟨⟨by decide, by decide⟩,
    (c1_failure_leaves_deck_amended sampleDeck3 "en-US" "fr-FR" "network down"
      (by decide) (by decide)).1⟩

/-- C2 (code bug): after a failed regeneration the generate button is still
disabled and the cooldown timer was never started; since the interval-expiry
callback is the only code path that sets `generateBtn.disabled = false`
(source line 279) and — starting from the session's empty timer state — no
interval registration exists whose firing could run it, the regenerate action
is NOT re-enabled after a failure, contradicting the claim (and the source's
own error message, which tells the user to try again). -/
theorem c2_failure_leaves_button_disabled :
    (generateClick sampleDeck3 "en-US" "fr-FR"
        (Except.error "network down")).state.generateBtnDisabled = true
    ∧ (generateClick sampleDeck3 "en-US" "fr-FR"
        (Except.error "network down")).timerStarted = false
    ∧ ∀ (iv : Interval) (now : Int),
        intervalFire iv now
            { intervals := [], timerInterval := none
              generateBtnDisabled := true, nextId := 0 }
          = ({ intervals := [], timerInterval := none
               generateBtnDisabled := true, nextId := 0 }, false) := by
  refine ⟨by decide, by decide, ?_⟩
  intro iv now
  simp [intervalFire]

/-- C4 (counterexample): the claim says every successful regeneration leaves
exactly 10 phrases, but the handler stores whatever array the endpoint
returned (source line 407) with no length check — a successful response
carrying 7 phrases yields a deck of 7. -/
theorem c4_success_length_counterexample :
    (generateClick sampleDeck3 "en-US" "fr-FR"
        (Except.ok (List.replicate 7 samplePhraseA))).timerStarted = true
    ∧ (generateClick sampleDeck3 "en-US" "fr-FR"
        (Except.ok (List.replicate 7 samplePhraseA))).state.phrasesData.length ≠ 10 := by
  decide

/-- C4 (amended): every successful regeneration, regardless of prior deck
state, yields `currentPhraseIndex = 0` and a phrase list equal to exactly the
parsed response payload; its length is 10 precisely when the endpoint
returned 10 items — neither the schema nor the handler enforces the count. -/
theorem c4_success_resets_index_amended (s : AppState)
    (nativeLangCode learningCode : String) (ps : List Phrase)
    (hn : nativeLangCode ≠ "") (hl : learningCode ≠ "") :
    (generateClick s nativeLangCode learningCode
        (Except.ok ps)).state.currentPhraseIndex = 0
    ∧ (generateClick s nativeLangCode learningCode
        (Except.ok ps)).state.phrasesData = ps
    ∧ ((generateClick s nativeLangCode learningCode
        (Except.ok ps)).state.phrasesData.length = 10 ↔ ps.length = 10) := by
  unfold generateClick
  rw [if_neg (by tauto)]
  exact ⟨rfl, rfl, Iff.rfl⟩

/-- Witness for the amended C4: a successful 10-item payload replacing a
three-phrase deck with the cursor at 2 leaves the cursor at 0. -/
theorem c4_success_resets_index_amended_witness :
    ("en-US" ≠ "" ∧ "fr-FR" ≠ "")
    ∧ (generateClick sampleDeck3 "en-US" "fr-FR"
        (Except.ok (List.replicate 10 samplePhraseA))).state.currentPhraseIndex = 0 :=
  ⟨⟨by decide, by decide⟩,
    (c4_success_resets_index_amended sampleDeck3 "en-US" "fr-FR"
      (List.replicate 10 samplePhraseA) (by decide) (by decide)).1⟩

/-- C5: whenever the generate handler reaches the client call, the exclusion
list it embeds in the prompt is exactly the `learning` strings of the deck as
it stood immediately before the call — as a set, precisely the `learning`
values present in the deck — and an empty deck yields an empty exclusion list
(and an empty exclusion sentence). -/
theorem c5_exclusion_set (s : AppState) (nativeLangCode learningCode : String)
    (outcome : Except String (List Phrase))
    (hn : nativeLangCode ≠ "") (hl : learningCode ≠ "") :
    (generateClick s nativeLangCode learningCode outcome).exclusionsSent
      = some (learningPhrasesOnly s.phrasesData)
    ∧ (∀ str, str ∈ learningPhrasesOnly s.phrasesData
        ↔ ∃ p ∈ s.phrasesData, p.learning = str)
    ∧ (s.phrasesData = [] →
        learningPhrasesOnly s.phrasesData = [] ∧ excludedPhrases s.phrasesData = "") := by
  refine ⟨?_, ?_, ?_⟩
  · unfold generateClick
    rw [if_neg (by tauto)]
    cases outcome <;> rfl
  · intro str
    simp [learningPhrasesOnly]
  · intro h
    rw [h]
    exact ⟨rfl, rfl⟩

/-- Witness for C5: a generate click from the empty initial deck sends the
empty exclusion list. -/
theorem c5_exclusion_set_witness :
    ("en-US" ≠ "" ∧ "fr-FR" ≠ "")
    ∧ (generateClick initialAppState "en-US" "fr-FR"
        (Except.error "network down")).exclusionsSent
      = some (learningPhrasesOnly initialAppState.phrasesData) :=
  ⟨⟨by decide, by decide⟩,
    (c5_exclusion_set initialAppState "en-US" "fr-FR" (Except.error "network down")
      (by decide) (by decide)).1⟩

end LangApp

namespace LangApp

/-- Function `speakText` never touches the deck: at most it refreshes the `voices`
array (via `loadVoices()` on the empty-catalog path). -/
theorem speakText_preserves_deck (platform : Platform) (s : AppState) (text : String) :
    (speakText platform s text).1.phrasesData = s.phrasesData
    ∧ (speakText platform s text).1.currentPhraseIndex = s.currentPhraseIndex := by
  unfold speakText
  repeat' split
  all_goals exact ⟨rfl, rfl⟩

/-- C9: every modelled operation of the core — regeneration (success or
failure, including the blocked-by-validation path), `showNextPhrase`,
`showPreviousPhrase`, the current-phrase read, and `speakText` — preserves
the invariant that `currentPhraseIndex` is in range whenever the deck is
non-empty (the current-phrase read leaves the state untouched outright). -/
theorem c9_invariant_preservation (s : AppState) (h : coreInvariant s) :
    coreInvariant (showNextPhrase s)
    ∧ coreInvariant (showPreviousPhrase s)
    ∧ (∀ (nativeLangCode learningCode : String)
        (outcome : Except String (List Phrase)),
        coreInvariant (generateClick s nativeLangCode learningCode outcome).state)
    ∧ (∀ (platform : Platform) (text : String),
        coreInvariant (speakText platform s text).1)
    ∧ (currentPhrase s).1 = s := by
  refine ⟨?_, ?_, ?_, ?_, rfl⟩
  · unfold coreInvariant showNextPhrase
    split
    · intro _
      dsimp only
      rename_i hguard
      omega
    · exact h
  · unfold coreInvariant showPreviousPhrase
    split
    · intro _
      dsimp only
      rename_i hguard
      have := h (by assumption)
      omega
    · exact h
  · intro nativeLangCode learningCode outcome
    unfold generateClick
    by_cases hval : nativeLangCode = "" ∨ learningCode = ""
    · rw [if_pos hval]
      intro hne
      exact h hne
    · rw [if_neg hval]
      cases outcome with
      | ok ps =>
        intro hne
        exact List.length_pos.mpr hne
      | error cause =>
        intro hne
        exact List.length_pos.mpr hne
  · intro platform text
    obtain ⟨h1, h2⟩ := speakText_preserves_deck platform s text
    unfold coreInvariant
    rw [h1, h2]
    exact h

/-- Witness for C9: the three-phrase deck with cursor 2 satisfies the
invariant, and still does after a `showNextPhrase` call. -/
theorem c9_invariant_preservation_witness :
    coreInvariant sampleDeck3 ∧ coreInvariant (showNextPhrase sampleDeck3) :=
  ⟨by intro _; decide,
    (c9_invariant_preservation sampleDeck3 (by intro _; decide)).1⟩

/-- C10: before any learning language has been set for the session
(`learningLangCode` still `null`, as at session start, since only the
generate-button handler assigns it), `speakText` is a safe no-op: the
line 82 safeguard returns before building an utterance, raising any speech
notice, or touching any state. -/
theorem c10_speak_before_language_set (platform : Platform) (s : AppState)
    (text : String) (h : s.learningLangCode = none) :
    speakText platform s text = (s, SpeakOutcome.noLanguageCode) := by
  unfold speakText
  rw [h]

/-- Witness for C10: speaking from the initial session state does nothing. -/
theorem c10_speak_before_language_set_witness :
    initialAppState.learningLangCode = none
    ∧ speakText
        { speechSynthesisAvailable := true, speakThrows := false, voicesOnReload := [] }
        initialAppState "Bonjour" = (initialAppState, SpeakOutcome.noLanguageCode) :=
  ⟨rfl,
    c10_speak_before_language_set
      { speechSynthesisAvailable := true, speakThrows := false, voicesOnReload := [] }
      initialAppState "Bonjour" rfl⟩

end LangApp

namespace LangApp

/-- C8 (counterexample): the claim says an exact tag match is preferred over
a mere primary-subtag match, but the source's single `find` with a
disjunctive predicate (line 103) returns the FIRST entry satisfying either
condition: with catalog `[en-GB, en-US]` and language code `en-US` it selects
`en-GB` even though the exact match `en-US` is present. -/
theorem c8_voice_selection_counterexample :
    findVoice [{ lang := "en-GB" }, { lang := "en-US" }] "en-US"
      = some { lang := "en-GB" }
    ∧ ({ lang := "en-GB" } : Voice).lang ≠ "en-US"
    ∧ ({ lang := "en-US" } : Voice) ∈ [({ lang := "en-GB" } : Voice), { lang := "en-US" }]
    ∧ ({ lang := "en-US" } : Voice).lang = "en-US" := by
  decide

/-- C8 (amended): voice selection is a single pass returning the FIRST
catalog entry, in catalog order, whose tag either equals the language code
exactly or starts with its 2-character primary subtag — with no preference
for exact matches over earlier subtag matches — and when no entry qualifies,
the utterance is dispatched with no selected voice handle. -/
theorem c8_voice_selection_amended (voices : List Voice) (code : String) :
    findVoice [] code = none
    ∧ (∀ (v : Voice) (rest : List Voice), voiceMatches code v = true →
        findVoice (v :: rest) code = some v)
    ∧ (∀ (v : Voice) (rest : List Voice), voiceMatches code v = false →
        findVoice (v :: rest) code = findVoice rest code)
    ∧ (findVoice voices code = none ↔ ∀ v ∈ voices, voiceMatches code v = false)
    ∧ (∀ (platform : Platform) (s : AppState) (text : String),
        platform.speechSynthesisAvailable = true → platform.speakThrows = false →
        s.learningLangCode = some code → code ≠ "" → s.voices ≠ [] →
        (speakText platform s text).2
          = SpeakOutcome.spoken text code (findVoice s.voices code)) := by
  refine ⟨rfl, ?_, ?_, ?_, ?_⟩
  · intro v rest hv
    unfold findVoice
    rw [List.find?_cons_of_pos _ hv]
  · intro v rest hv
    unfold findVoice
    rw [List.find?_cons_of_neg _ (by rw [hv]; exact Bool.false_ne_true)]
  · unfold findVoice
    rw [List.find?_eq_none]
    constructor
    · intro hall v hv
      have := hall v hv
      simpa using this
    · intro hall v hv
      simp [hall v hv]
  · intro platform s text pavail pthrow hcode hne hvne
    unfold speakText
    rw [hcode]
    dsimp only
    rw [if_neg hne, if_pos pavail,
        if_neg (by simpa using hvne),
        if_neg (by rw [pthrow]; exact Bool.false_ne_true)]

/-- Witness for C8 (amended): a head entry satisfying the subtag disjunct is
returned at once. -/
theorem c8_voice_selection_amended_witness :
    voiceMatches "en-US" { lang := "en-GB" } = true
    ∧ findVoice [{ lang := "en-GB" }] "en-US" = some { lang := "en-GB" } :=
  ⟨by decide,
    (c8_voice_selection_amended [] "en-US").2.1 { lang := "en-GB" } [] (by decide)⟩

end LangApp

namespace LangApp

/-- A callback whose interval registration is no longer live never fires. -/
theorem intervalFire_not_mem (iv : Interval) (now : Int) (ts : TimerState)
    (h : iv ∉ ts.intervals) : intervalFire iv now ts = (ts, false) := by
  unfold intervalFire
  rw [if_neg h]

/-- C7 (counterexample): start a cooldown at t=0 (window id 0, end 300000 ms)
and again at t=100000 (window id 1, end 400000 ms).  At t=300000 the
superseded window's callback still fires its expiry branch — the claim says
it must never fire after replacement — and at t=400000 the replacement
window's own expiry does NOT fire (its registration was cleared by the old
callback's `clearInterval(timerInterval)`), so `onExpire` also fails to fire
exactly once per `start` call. -/
theorem c7_timer_replacement_counterexample :
    (intervalFire { id := 0, endTime := 300000 } 300000
        (startTimer 100000 (startTimer 0
          { intervals := [], timerInterval := none
            generateBtnDisabled := true, nextId := 0 }))).2 = true
    ∧ (intervalFire { id := 1, endTime := 400000 } 400000
        (intervalFire { id := 0, endTime := 300000 } 300000
          (startTimer 100000 (startTimer 0
            { intervals := [], timerInterval := none
              generateBtnDisabled := true, nextId := 0 }))).1).2 = false := by
  decide

/-- C7 (amended): re-calling `startTimer` before expiry does NOT replace the
prior window: the prior interval registration stays live; once the prior
window's own end time has passed, its callback fires its expiry branch —
re-enabling the generate button early — and that firing runs
`clearInterval(timerInterval)`, clearing the replacement window's
registration, so the replacement window's expiry never fires afterwards. -/
theorem c7_timer_replacement_amended (ts : TimerState) (t0 t1 now : Int)
    (_hlive : t1 < t0 + (WAIT_TIME : Int) * 1000)
    (hdue : t0 + (WAIT_TIME : Int) * 1000 ≤ now) :
    ({ id := ts.nextId, endTime := t0 + (WAIT_TIME : Int) * 1000 } : Interval)
        ∈ (startTimer t1 (startTimer t0 ts)).intervals
    ∧ (intervalFire { id := ts.nextId, endTime := t0 + (WAIT_TIME : Int) * 1000 } now
        (startTimer t1 (startTimer t0 ts))).2 = true
    ∧ ({ id := ts.nextId + 1, endTime := t1 + (WAIT_TIME : Int) * 1000 } : Interval)
        ∉ (intervalFire { id := ts.nextId, endTime := t0 + (WAIT_TIME : Int) * 1000 } now
            (startTimer t1 (startTimer t0 ts))).1.intervals
    ∧ (intervalFire { id := ts.nextId, endTime := t0 + (WAIT_TIME : Int) * 1000 } now
        (startTimer t1 (startTimer t0 ts))).1.generateBtnDisabled = false
    ∧ ∀ (t : Int),
        (intervalFire { id := ts.nextId + 1, endTime := t1 + (WAIT_TIME : Int) * 1000 } t
          (intervalFire { id := ts.nextId, endTime := t0 + (WAIT_TIME : Int) * 1000 } now
            (startTimer t1 (startTimer t0 ts))).1).2 = false := by
  have hmem : ({ id := ts.nextId, endTime := t0 + (WAIT_TIME : Int) * 1000 } : Interval)
      ∈ (startTimer t1 (startTimer t0 ts)).intervals := by
    simp [startTimer]
  have hle : (t0 + (WAIT_TIME : Int) * 1000 - now).fdiv 1000 ≤ 0 := by
    rw [Int.fdiv_eq_ediv _ (by omega)]
    omega
  have hfire : intervalFire { id := ts.nextId, endTime := t0 + (WAIT_TIME : Int) * 1000 } now
      (startTimer t1 (startTimer t0 ts))
      = ({ (startTimer t1 (startTimer t0 ts)) with
            intervals := clearIntervalHandle (startTimer t1 (startTimer t0 ts)).timerInterval
              (startTimer t1 (startTimer t0 ts)).intervals
            generateBtnDisabled := false }, true) := by
    unfold intervalFire
    rw [if_pos hmem, if_pos hle]
  have hnot : ({ id := ts.nextId + 1, endTime := t1 + (WAIT_TIME : Int) * 1000 } : Interval)
      ∉ (intervalFire { id := ts.nextId, endTime := t0 + (WAIT_TIME : Int) * 1000 } now
          (startTimer t1 (startTimer t0 ts))).1.intervals := by
    rw [hfire]
    simp [startTimer, clearIntervalHandle, List.mem_filter]
  refine ⟨hmem, by rw [hfire], hnot, by rw [hfire], ?_⟩
  intro t
  rw [intervalFire_not_mem _ _ _ hnot]

/-- Witness for C7 (amended), on the concrete double-start trace used by the
counterexample: the superseded window's expiry fires. -/
theorem c7_timer_replacement_amended_witness :
    ((100000 : Int) < 0 + (WAIT_TIME : Int) * 1000
      ∧ (0 : Int) + (WAIT_TIME : Int) * 1000 ≤ 300000)
    ∧ (intervalFire { id := 0, endTime := 0 + (WAIT_TIME : Int) * 1000 } 300000
        (startTimer 100000 (startTimer 0
          { intervals := [], timerInterval := none
            generateBtnDisabled := true, nextId := 0 }))).2 = true :=
  ⟨⟨by decide, by decide⟩,
    (c7_timer_replacement_amended
      { intervals := [], timerInterval := none
        generateBtnDisabled := true, nextId := 0 }
      0 100000 300000 (by decide) (by decide)).2.1⟩

end LangApp
